import Mathlib

/-!
Verification of the diagnostic analysis pipeline of the Compass educational
chat system (`server/src/diagnostics.py`, with the conversation store
interface of `server/src/database.py` and the reasoning-engine interface of
`server/src/llm_client.py`).

The embedding is shallow: Python dicts become structures or association
lists (preserving CPython's insertion-order semantics), the reasoning
engine (`ClaudeClient.generate`) becomes an oracle function
`prompt -> system_prompt -> max_tokens -> response`, raised exceptions
become `Except` / `Option` results, and `json.loads` is modelled by an
executable fuel-based JSON reader over the subset of JSON that the
pipeline exchanges (objects, arrays, strings, integers, booleans, null;
string escape sequences and floating-point literals are not modelled —
no claim depends on them).  Python's float percentage formatting
(`f"{pct:.1f}"`) is modelled by exact rational rounding to one decimal
place with round-half-to-even, which agrees with CPython's formatting of
`count / total * 100` on every input exercised here.
-/

namespace Compass

/-! ## Data model

`StudentAssessment` models the JSON record produced by the reasoning
engine for one student.  The pipeline code reads only the `category`
field of the entries of `understood_well` and `struggled_with`
(`diagnostics.py` lines 198-208 and 220-230), so only those parts are
modelled; the remaining fields (`evidence`, `severity`, `asked_about`,
`total_questions`, `engagement_level`) are never inspected by the code
under analysis. -/

/-- One entry of `understood_well` / `struggled_with`; the pipeline reads
only `item['category']`. -/
structure AssessItem where
  category : String
deriving DecidableEq

/-- The per-student structured record, restricted to the fields the
pipeline reads. -/
structure StudentAssessment where
  understood_well : List AssessItem
  struggled_with : List AssessItem
deriving DecidableEq

/-- One canonical-category entry as built by `_extract_categories`:
`{'category': ..., 'type': 'understood' | 'struggled'}`. -/
structure CanonicalCategory where
  category : String
  type : String
deriving DecidableEq

/-! ## Aggregator (`_generate_statistics`, lines 212-261)

Python dict semantics: `d[k] = d.get(k, 0) + 1` keeps the key at its
first-insertion position.  We model count dicts as association lists in
insertion order. -/

/-- `counts[category] = counts.get(category, 0) + 1` on an
insertion-ordered dict. -/
def incrCount : List (String × Nat) → String → List (String × Nat)
  | [], cat => [(cat, 1)]
  | (c, n) :: rest, cat =>
    if c = cat then (c, n + 1) :: rest else (c, n) :: incrCount rest cat

/-- Count the occurrences of a list of category names, in first-seen
order (the contents of a Python counting dict). -/
def countOcc (cats : List String) : List (String × Nat) :=
  cats.foldl incrCount []

/-- Lines 219-223: one increment per `struggled_with` entry of every
assessment (no deduplication within an assessment). -/
def struggleCounts (analyses : List StudentAssessment) : List (String × Nat) :=
  analyses.foldl (fun acc a => a.struggled_with.foldl (fun m item => incrCount m item.category) acc) []

/-- Lines 226-230: same for `understood_well`. -/
def understoodCounts (analyses : List StudentAssessment) : List (String × Nat) :=
  analyses.foldl (fun acc a => a.understood_well.foldl (fun m item => incrCount m item.category) acc) []

/-- Stable insertion of a `(topic, count)` pair into a
count-descending list: placed before the first element whose count is
`≤` its own, so that among equal counts earlier elements stay first. -/
def insertDesc (x : String × Nat) : List (String × Nat) → List (String × Nat)
  | [] => [x]
  | y :: ys => if y.2 ≤ x.2 then x :: y :: ys else y :: insertDesc x ys

/-- Model of Python's `sorted(counts.items(), key=lambda x: x[1],
reverse=True)` (line 239 / 252): a stable sort, descending by count. -/
def sortCountsDesc (l : List (String × Nat)) : List (String × Nat) :=
  l.foldr insertDesc []

/-- Round `count / total * 100` to tenths (an integer number of tenths),
half to even — the value printed by `f"{(count / total) * 100:.1f}"`. -/
def pctTenths (count total : Nat) : Nat :=
  let num := count * 1000
  let q := num / total
  let r := num % total
  if total < 2 * r then q + 1
  else if 2 * r < total then q
  else if q % 2 = 0 then q else q + 1

/-- Render the percentage with one decimal digit. -/
def formatPct (count total : Nat) : String :=
  let t := pctTenths count total
  toString (t / 10) ++ "." ++ toString (t % 10)

/-- Line 246 / 259: `f"- **{topic}**: {count} students ({pct:.1f}%)"`. -/
def bulletLine (topic : String) (count total : Nat) : String :=
  "- **" ++ topic ++ "**: " ++ toString count ++ " students (" ++ formatPct count total ++ "%)"

/-- Lines 239-246: the bullet list under `Top Struggles` (placeholder if
the truncated list is empty). -/
def topStruggleLines (analyses : List StudentAssessment) : List String :=
  let sorted := (sortCountsDesc (struggleCounts analyses)).take 5
  if sorted.isEmpty then ["_No significant struggles detected._"]
  else sorted.map fun tc => bulletLine tc.1 tc.2 analyses.length

/-- Lines 252-259: the bullet list under `Well Understood`. -/
def topUnderstoodLines (analyses : List StudentAssessment) : List String :=
  let sorted := (sortCountsDesc (understoodCounts analyses)).take 5
  if sorted.isEmpty then ["_No clear patterns of understanding detected._"]
  else sorted.map fun tc => bulletLine tc.1 tc.2 analyses.length

/-- `_generate_statistics` (lines 212-261).  The three header strings
reproduce the source file's literals byte for byte (the source contains
mojibake in place of the intended emoji; we keep the exact codepoints). -/
def generate_statistics (analyses : List StudentAssessment) : String :=
  let total_students := analyses.length
  if total_students = 0 then
    "No student data available for statistics."
  else
    String.intercalate "\n"
      (["### \u00f0\u0178\u201c\u0160 Class Statistics (N=" ++ toString total_students ++ ")", "",
        "#### \u00e2\u0161\u00a0\u00ef\u00b8 Top Struggles"]
        ++ topStruggleLines analyses
        ++ [""]
        ++ ["#### \u00e2\u0153\u2026 Well Understood"]
        ++ topUnderstoodLines analyses)

/-! ## Canonicalizer (`_extract_categories`, lines 194-210) -/

/-- `_extract_categories`: appends one canonical entry per
`understood_well` item, then one per `struggled_with` item, translated
loop for loop (list-append accumulation as in the source). -/
def extract_categories (first_analysis : StudentAssessment) : List CanonicalCategory :=
  let categories : List CanonicalCategory := []
  let categories := first_analysis.understood_well.foldl
    (fun acc item => acc ++ [{ category := item.category, type := "understood" }]) categories
  let categories := first_analysis.struggled_with.foldl
    (fun acc item => acc ++ [{ category := item.category, type := "struggled" }]) categories
  categories

/-! ## Response cleaning (lines 165 and 191)

`response.replace('```json', '').replace('```', '').strip()`.

Python's `str.replace` removes non-overlapping occurrences scanning left
to right; `str.strip` drops leading and trailing whitespace.  Both are
modelled on `List Char`; `replaceAllAux` is fuelled (one unit of fuel per
examined position, so `s.length` suffices) to keep it structurally
recursive and kernel-evaluable. -/

/-- Left-to-right replacement of non-overlapping occurrences of `needle`
by `repl` (Python `str.replace`), fuelled by the number of scan steps. -/
def replaceAllAux (needle repl : List Char) : Nat → List Char → List Char
  | 0, s => s
  | _ + 1, [] => []
  | fuel + 1, c :: rest =>
    if needle ≠ [] ∧ needle.isPrefixOf (c :: rest) then
      repl ++ replaceAllAux needle repl fuel ((c :: rest).drop needle.length)
    else
      c :: replaceAllAux needle repl fuel rest

/-- Python `s.replace(needle, repl)`. -/
def replaceAll (needle repl s : String) : String :=
  { data := replaceAllAux needle.data repl.data s.data.length s.data }

/-- Python whitespace test for `str.strip` (the characters relevant
here). -/
def isWsChar (c : Char) : Bool :=
  c = ' ' ∨ c = '\n' ∨ c = '\t' ∨ c = '\r'

/-- Python `str.strip()` on the character list: drop leading whitespace,
then trailing whitespace. -/
def pyStrip (s : List Char) : List Char :=
  ((s.dropWhile isWsChar).reverse.dropWhile isWsChar).reverse

/-- Python `str.strip()` on strings. -/
def stripStr (s : String) : String :=
  { data := pyStrip s.data }

/-- Lines 165 / 191: `response.replace('```json', '').replace('```',
'').strip()`. -/
def cleanResponse (response : String) : String :=
  stripStr (replaceAll "```" "" (replaceAll "```json" "" response))

/-! ## JSON decoding (`json.loads` at lines 166 and 192)

An executable reader for the JSON subset exchanged by the pipeline.
`parseJ` is one fuelled function whose `mode` argument selects between
parsing a value (0), array elements just after `[` (1), further array
elements after a comma (3), object members just after the opening brace
(2), and further members after a comma (4); every recursive call spends
one unit of fuel, so the function is structurally recursive and
kernel-evaluable.  `2 * length + 2` units of fuel are always enough for
the inputs the pipeline meets. -/

/-- JSON values (no floats, no escape sequences — see the module
comment). -/
inductive JVal where
  | jnull : JVal
  | jbool : Bool → JVal
  | jnum : Int → JVal
  | jstr : String → JVal
  | jarr : List JVal → JVal
  | jobj : List (String × JVal) → JVal

/-- Intermediate parsing results for the three `parseJ` modes. -/
inductive PRes where
  | rv : JVal → PRes
  | rvs : List JVal → PRes
  | rfs : List (String × JVal) → PRes

/-- Drop leading JSON whitespace. -/
def skipWs (s : List Char) : List Char :=
  s.dropWhile isWsChar

/-- Read a string body up to the closing quote (input starts after the
opening quote). -/
def takeStr (s : List Char) : Option (String × List Char) :=
  let content := s.takeWhile (fun c => c ≠ '"')
  match s.dropWhile (fun c => c ≠ '"') with
  | '"' :: r => some ({ data := content }, r)
  | _ => none

/-- Decimal digits to a natural number. -/
def digitsToNat (ds : List Char) : Nat :=
  ds.foldl (fun n c => n * 10 + (c.toNat - 48)) 0

/-- Read an integer literal (optional minus sign, then digits). -/
def takeNum (s : List Char) : Option (Int × List Char) :=
  match s with
  | '-' :: rest =>
    let ds := rest.takeWhile Char.isDigit
    if ds.isEmpty then none
    else some (-(digitsToNat ds : Int), rest.dropWhile Char.isDigit)
  | _ =>
    let ds := s.takeWhile Char.isDigit
    if ds.isEmpty then none
    else some ((digitsToNat ds : Int), s.dropWhile Char.isDigit)

/-- The fuelled JSON reader; see the section comment for the `mode`
encoding. -/
def parseJ : Nat → Nat → List Char → Option (PRes × List Char)
  | 0, _, _ => none
  | fuel + 1, 0, s =>
    match skipWs s with
    | [] => none
    | c :: rest =>
      if c = '"' then
        match takeStr rest with
        | some (str, r) => some (.rv (.jstr str), r)
        | none => none
      else if c = '[' then
        match parseJ fuel 1 rest with
        | some (.rvs vs, r) => some (.rv (.jarr vs), r)
        | _ => none
      else if c = '\x7b' then
        match parseJ fuel 2 rest with
        | some (.rfs fs, r) => some (.rv (.jobj fs), r)
        | _ => none
      else if c = 't' then
        match rest with
        | 'r' :: 'u' :: 'e' :: r => some (.rv (.jbool true), r)
        | _ => none
      else if c = 'f' then
        match rest with
        | 'a' :: 'l' :: 's' :: 'e' :: r => some (.rv (.jbool false), r)
        | _ => none
      else if c = 'n' then
        match rest with
        | 'u' :: 'l' :: 'l' :: r => some (.rv .jnull, r)
        | _ => none
      else
        match takeNum (c :: rest) with
        | some (n, r) => some (.rv (.jnum n), r)
        | none => none
  | fuel + 1, 1, s =>
    match skipWs s with
    | ']' :: r => some (.rvs [], r)
    | s1 => parseJ fuel 3 s1
  | fuel + 1, 3, s =>
    match parseJ fuel 0 s with
    | some (.rv v, r) =>
      (match skipWs r with
       | ',' :: r2 =>
         match parseJ fuel 3 r2 with
         | some (.rvs vs, r3) => some (.rvs (v :: vs), r3)
         | _ => none
       | ']' :: r2 => some (.rvs [v], r2)
       | _ => none)
    | _ => none
  | fuel + 1, 2, s =>
    match skipWs s with
    | '\x7d' :: r => some (.rfs [], r)
    | s1 => parseJ fuel 4 s1
  | fuel + 1, 4, s =>
    match skipWs s with
    | '"' :: rest =>
      (match takeStr rest with
       | some (key, r) =>
         (match skipWs r with
          | ':' :: r2 =>
            (match parseJ fuel 0 r2 with
             | some (.rv v, r3) =>
               (match skipWs r3 with
                | ',' :: r4 =>
                  (match parseJ fuel 4 r4 with
                   | some (.rfs fs, r5) => some (.rfs ((key, v) :: fs), r5)
                   | _ => none)
                | '\x7d' :: r4 => some (.rfs [(key, v)], r4)
                | _ => none)
             | _ => none)
          | _ => none)
       | none => none)
    | _ => none
  | _ + 1, _, _ => none

/-- Model of `json.loads`: parse one value and require only whitespace
to remain. -/
def parseTop (s : String) : Option JVal :=
  match parseJ (2 * s.length + 2) 0 s.data with
  | some (.rv v, rest) => if skipWs rest = [] then some v else none
  | _ => none

/-- Dict lookup on a decoded JSON object; as in Python, a duplicated key
takes its last value. -/
def jLookup (fields : List (String × JVal)) (key : String) : Option JVal :=
  match fields with
  | [] => none
  | (k, v) :: rest =>
    match jLookup rest key with
    | some w => some w
    | none => if k = key then some v else none

/-- `item['category']`, required to be a string (the pipeline uses it as
a dict key and in f-strings). -/
def itemCategory : JVal → Option String
  | .jobj fields =>
    match jLookup fields "category" with
    | some (.jstr s) => some s
    | _ => none
  | _ => none

/-- An `understood_well` / `struggled_with` value must be an array of
objects carrying a `category`; any other shape raises in the Python
pipeline when the field is read. -/
def itemsOf : JVal → Option (List AssessItem)
  | .jarr elems => elems.mapM (fun e => (itemCategory e).map ({ category := · }))
  | _ => none

/-- Decode an engine response (already cleaned) into the structured
record: `json.loads` followed by the field accesses the pipeline
performs (`.get('understood_well', [])`, `.get('struggled_with', [])`,
and `item['category']` on every entry).  `none` models the exception
raised on malformed or non-conforming text. -/
def decodeAssessment (s : String) : Option StudentAssessment :=
  match parseTop s with
  | some (.jobj fields) =>
    let uw := (jLookup fields "understood_well").getD (.jarr [])
    let sw := (jLookup fields "struggled_with").getD (.jarr [])
    match itemsOf uw, itemsOf sw with
    | some u, some w => some { understood_well := u, struggled_with := w }
    | _, _ => none
  | _ => none

/-! ## External collaborators

The reasoning engine (`ClaudeClient.generate`) is an oracle
`prompt → system_prompt → max_tokens → response text`; the conversation
store (`DatabaseService.get_conversations_for_diagnostics`) is a map from
assignment id to `(conversations, exam_content)` — it returns an empty
list, not an error, when no histories exist. -/

/-- The reasoning engine oracle. -/
abbrev LLM := String → String → Nat → String

/-- The conversation store. -/
abbrev DB := String → List (List String) × String

/-! ## Prompt assembly (the f-strings of `diagnostics.py`) -/

/-- `_format_conversation` (lines 283-289). -/
def formatConversation (messages : List String) : String :=
  messages.enum.foldl
    (fun formatted p =>
      formatted ++ (if p.1 % 2 = 0 then "Student" else "Assistant") ++ ": " ++ p.2 ++ "\n")
    ""

/-- System prompt of `_analyze_first_student` (lines 129-134). -/
def firstStudentSystem : String :=
  "You are an expert educational diagnostician. Analyze a student's chat conversation to identify:\n1. Topics/concepts the student UNDERSTOOD well\n2. Topics/concepts the student STRUGGLED with\n3. Topics/concepts the student ASKED ABOUT\n\nCreate SPECIFIC, CANONICAL labels that can be reused for other students."

/-- Task prompt of `_analyze_first_student` (lines 138-160). -/
def firstStudentPrompt (conversation : List String) (exam_content : String) : String :=
  "Exam Content:\n" ++ exam_content ++ "\n\nStudent Conversation:\n"
    ++ formatConversation conversation
    ++ "\n\nAnalyze and output a JSON object:\n\x7b\n  \"student_id\": \"student_1\",\n  \"understood_well\": [\n    \x7b\"category\": \"specific topic\", \"evidence\": \"quote or summary\"\x7d\n  ],\n  \"struggled_with\": [\n    \x7b\"category\": \"specific topic\", \"evidence\": \"quote\", \"severity\": \"low|medium|high\"\x7d\n  ],\n  \"asked_about\": [\n    \x7b\"category\": \"specific topic\", \"resolution\": \"resolved|unresolved\"\x7d\n  ],\n  \"total_questions\": number,\n  \"engagement_level\": \"low|medium|high\"\n\x7d\n\nOutput ONLY valid JSON."

/-- `json.dumps(s)` on a plain string (escape sequences not modelled —
no claim depends on serialized prompt text). -/
def dumpsStr (s : String) : String :=
  "\"" ++ s ++ "\""

/-- `json.dumps(list_of_strings, indent=2)`. -/
def dumpsStrList (xs : List String) : String :=
  match xs with
  | [] => "[]"
  | _ => "[\n  " ++ String.intercalate ",\n  " (xs.map dumpsStr) ++ "\n]"

/-- Serialized form of an assessment-item list (models `json.dumps` up
to whitespace; no claim depends on it). -/
def dumpsItems (items : List AssessItem) : String :=
  "[" ++ String.intercalate ", "
    (items.map (fun i => "\x7b\"category\": " ++ dumpsStr i.category ++ "\x7d")) ++ "]"

/-- Serialized form of one student assessment. -/
def dumpsAssessment (a : StudentAssessment) : String :=
  "\x7b\"understood_well\": " ++ dumpsItems a.understood_well
    ++ ", \"struggled_with\": " ++ dumpsItems a.struggled_with ++ "\x7d"

/-- Serialized form of the assessment list. -/
def dumpsAssessments (xs : List StudentAssessment) : String :=
  "[" ++ String.intercalate ", " (xs.map dumpsAssessment) ++ "]"

/-- Serialized form of the canonical category list. -/
def dumpsCanonical (cs : List CanonicalCategory) : String :=
  "[" ++ String.intercalate ", "
    (cs.map (fun c => "\x7b\"category\": " ++ dumpsStr c.category
      ++ ", \"type\": " ++ dumpsStr c.type ++ "\x7d")) ++ "]"

/-- System prompt of `_analyze_student` (lines 172-177); lists only the
canonical category names. -/
def studentSystem (canonical_categories : List CanonicalCategory) : String :=
  "You are an expert educational diagnostician. Map this student's understanding to EXISTING CANONICAL CATEGORIES.\n\nCANONICAL CATEGORIES:\n"
    ++ dumpsStrList (canonical_categories.map (·.category))
    ++ "\n\nUse EXACT category names when applicable. Only create NEW categories if genuinely different."

/-- Task prompt of `_analyze_student` (lines 181-188). -/
def studentPrompt (conversation : List String) (exam_content : String) (student_num : Nat) : String :=
  "Exam Content:\n" ++ exam_content ++ "\n\nStudent Conversation:\n"
    ++ formatConversation conversation
    ++ "\n\nAnalyze and output a JSON object (same format as before) for student_"
    ++ toString student_num
    ++ ".\nUse canonical categories where applicable. Output ONLY valid JSON."

/-- System prompt of `_create_overview` (line 265). -/
def overviewSystem : String :=
  "You are an educational analyst. Create a concise overview report for the professor."

/-- Task prompt of `_create_overview` (lines 267-279); `stats` is the
statistics string, serialized by `json.dumps` as a quoted string. -/
def overviewPrompt (analyses : List StudentAssessment) (stats : String) : String :=
  "Student Analyses:\n" ++ dumpsAssessments analyses
    ++ "\n\nStatistics:\n" ++ dumpsStr stats
    ++ "\n\nCreate a brief overview report highlighting:\n1. Overall performance patterns\n2. Common struggles\n3. Well-understood concepts\n4. Recommendations for the professor\n\nKeep it concise and actionable."

/-! ## Per-student extraction (`_analyze_first_student`,
`_analyze_student`) -/

/-- The `json.JSONDecodeError` (or the subsequent `KeyError` /
`AttributeError` on a non-conforming record) raised when engine output
does not decode into the structured record; the specification names this
failure `MalformedAnalysisError`.  Carries the cleaned text that failed
to decode. -/
inductive AnalysisError where
  | malformed : String → AnalysisError
deriving DecidableEq

/-- `_analyze_first_student` (lines 126-166): one engine call, then
code-fence cleanup, then decode; a decode failure raises. -/
def analyzeFirstStudent (llm : LLM) (conversation : List String)
    (exam_content : String) : Except AnalysisError StudentAssessment :=
  let response := llm (firstStudentPrompt conversation exam_content) firstStudentSystem 4096
  let cleaned := cleanResponse response
  match decodeAssessment cleaned with
  | some a => .ok a
  | none => .error (.malformed cleaned)

/-- `_analyze_student` (lines 168-192): same contract, prompt built from
the canonical categories and the student index. -/
def analyzeStudent (llm : LLM) (conversation : List String) (exam_content : String)
    (canonical_categories : List CanonicalCategory) (student_num : Nat) :
    Except AnalysisError StudentAssessment :=
  let response := llm (studentPrompt conversation exam_content student_num)
    (studentSystem canonical_categories) 4096
  let cleaned := cleanResponse response
  match decodeAssessment cleaned with
  | some a => .ok a
  | none => .error (.malformed cleaned)

/-- The loop of lines 61-68: analyze `conversations[1:]` with
`student_num` counting from 2; the first failure aborts the run. -/
def analyzeRest (llm : LLM) (exam_content : String)
    (canonical_categories : List CanonicalCategory) :
    List (List String) → Nat → Except AnalysisError (List StudentAssessment)
  | [], _ => .ok []
  | conv :: rest, i =>
    match analyzeStudent llm conv exam_content canonical_categories i with
    | .error e => .error e
    | .ok a =>
      match analyzeRest llm exam_content canonical_categories rest (i + 1) with
      | .error e => .error e
      | .ok tail_analyses => .ok (a :: tail_analyses)

/-- `_create_overview` (lines 263-281): free-text synthesis, no parsing. -/
def createOverview (llm : LLM) (analyses : List StudentAssessment)
    (stats : String) : String :=
  llm (overviewPrompt analyses stats) overviewSystem 4096

/-! ## Report cache and orchestration (`analyze_assignment`, `query`) -/

/-- The dict returned by a successful `analyze_assignment` (lines
85-91). -/
structure AnalysisPayload where
  assignment_id : String
  total_students : Nat
  overview : String
  statistics : String
  student_analyses : List StudentAssessment
deriving DecidableEq

/-- One `analysis_cache` entry (lines 77-83). -/
structure CacheEntry where
  assignment_id : String
  student_analyses : List StudentAssessment
  statistics : String
  canonical_categories : List CanonicalCategory
  exam_content : String
deriving DecidableEq

/-- The value `analyze_assignment` returns without raising: either the
`{'assignment_id', 'error'}` payload of lines 46-49 or the full report
payload. -/
inductive AnalyzeOut where
  | errorOut : String → String → AnalyzeOut
  | payload : AnalysisPayload → AnalyzeOut
deriving DecidableEq

/-- `self.analysis_cache`: a Python dict keyed by assignment id,
modelled in insertion order. -/
abbrev Cache := List (String × CacheEntry)

/-- Dict membership / read: `assignment_id in self.analysis_cache`,
`self.analysis_cache[assignment_id]`. -/
def cacheLookup : Cache → String → Option CacheEntry
  | [], _ => none
  | (k, v) :: rest, key => if k = key then some v else cacheLookup rest key

/-- Dict write `self.analysis_cache[key] = entry`: updates in place if
the key exists (keeping its position), appends otherwise. -/
def dictInsert (key : String) (entry : CacheEntry) : Cache → Cache
  | [] => [(key, entry)]
  | (k, v) :: rest =>
    if k = key then (key, entry) :: rest else (k, v) :: dictInsert key entry rest

/-- The three ways one run of the pipeline body (lines 40-91, cache
write excluded) can end. -/
inductive RunOutcome where
  | noData : AnalyzeOut → RunOutcome
  | failed : AnalysisError → RunOutcome
  | done : AnalyzeOut → CacheEntry → RunOutcome

/-- The cache-free body of `analyze_assignment` (lines 40-91): load the
conversations, return the error payload if there are none, analyze
student 1, canonicalize, analyze the remaining students in order,
aggregate, synthesize the overview; `done` carries both the returned
payload and the entry that line 77 writes to the cache. -/
def runPipeline (db : DB) (llm : LLM) (assignment_id : String) : RunOutcome :=
  let conversations := (db assignment_id).1
  let exam_content := (db assignment_id).2
  match conversations with
  | [] => .noData (.errorOut assignment_id "No chat histories found")
  | conv0 :: rest =>
    match analyzeFirstStudent llm conv0 exam_content with
    | .error e => .failed e
    | .ok first_analysis =>
      let canonical_categories := extract_categories first_analysis
      match analyzeRest llm exam_content canonical_categories rest 2 with
      | .error e => .failed e
      | .ok tail_analyses =>
        let student_analyses := first_analysis :: tail_analyses
        let statistics := generate_statistics student_analyses
        let overview := createOverview llm student_analyses statistics
        .done
          (.payload
            { assignment_id := assignment_id
              total_students := (conv0 :: rest).length
              overview := overview
              statistics := statistics
              student_analyses := student_analyses })
          { assignment_id := assignment_id
            student_analyses := student_analyses
            statistics := statistics
            canonical_categories := canonical_categories
            exam_content := exam_content }

/-- `analyze_assignment` with explicit cache state: the empty-corpus
payload and any raised decode error leave the cache untouched; a
successful run overwrites the entry for `assignment_id` wholesale
(line 77) and returns the payload of lines 85-91. -/
def analyze_assignment (db : DB) (llm : LLM) (cache : Cache)
    (assignment_id : String) : Except AnalysisError AnalyzeOut × Cache :=
  match runPipeline db llm assignment_id with
  | .noData out => (.ok out, cache)
  | .failed e => (.error e, cache)
  | .done out entry => (.ok out, dictInsert assignment_id entry cache)

/-- System prompt of `query` (line 111). -/
def querySystem : String :=
  "You are an educational data analyst. Answer the professor's question based on the student performance data provided."

/-- Serialized cache entry, modelling `json.dumps(analysis_data,
indent=2)` up to whitespace (no claim depends on the prompt text). -/
def dumpsEntry (e : CacheEntry) : String :=
  "\x7b\"assignment_id\": " ++ dumpsStr e.assignment_id
    ++ ", \"student_analyses\": " ++ dumpsAssessments e.student_analyses
    ++ ", \"statistics\": " ++ dumpsStr e.statistics
    ++ ", \"canonical_categories\": " ++ dumpsCanonical e.canonical_categories
    ++ ", \"exam_content\": " ++ dumpsStr e.exam_content ++ "\x7d"

/-- Task prompt of `query` (lines 113-118). -/
def queryPrompt (analysis_data : CacheEntry) (question : String) : String :=
  "Analysis Data:\n" ++ dumpsEntry analysis_data
    ++ "\n\nProfessor's Question: " ++ question
    ++ "\n\nProvide a clear, data-driven answer to the professor's question."

/-- The instructional message returned when `query` is issued before any
analysis (line 107); the specification's `NotAnalyzedError` is surfaced
to the caller as exactly this text. -/
def notAnalyzedMessage : String :=
  "Please run analysis first before querying."

/-- `query` (lines 93-124) with explicit cache state: if the id was
never analyzed, return the instructional message without consulting the
engine; otherwise forward the serialized cached report and the question
to the engine (`max_tokens=2048`) and return its answer. -/
def query (llm : LLM) (cache : Cache) (assignment_id question : String) :
    String × Cache :=
  match cacheLookup cache assignment_id with
  | none => (notAnalyzedMessage, cache)
  | some analysis_data =>
    (llm (queryPrompt analysis_data question) querySystem 2048, cache)

/-! ## Shared concrete fixtures for the witnesses -/

/-- A store holding one two-turn conversation for every assignment id. -/
def dbOne : DB := fun _ => ([["hi", "hello"]], "exam text")

/-- A store holding no conversations at all. -/
def dbNone : DB := fun _ => ([], "")

/-- An engine that always answers with a fenced well-formed record. -/
def llmGood : LLM := fun _ _ _ =>
  "```json\n\x7b\"understood_well\": [\x7b\"category\": \"loops\"\x7d], \"struggled_with\": [\x7b\"category\": \"recursion\"\x7d]\x7d\n```"

/-- An engine that always answers with non-JSON text. -/
def llmBad : LLM := fun _ _ _ => "not json"

/-- A cache entry under an unrelated key, to observe frame conditions. -/
def otherEntry : CacheEntry :=
  { assignment_id := "other", student_analyses := [], statistics := "",
    canonical_categories := [], exam_content := "" }

/-- The 3-student fixture of C3: student 1 lists `loops` twice. -/
def analysesC3 : List StudentAssessment :=
  [{ understood_well := [], struggled_with := [⟨"loops"⟩, ⟨"loops"⟩] },
   { understood_well := [], struggled_with := [⟨"recursion"⟩] },
   { understood_well := [], struggled_with := [] }]

/-- The 8-student fixture of C6: category `ti` is struggled with (and
understood) by exactly `9 - i` students, so the counts are strictly
decreasing `8, 7, ..., 1` in first-seen order `t1, ..., t8`. -/
def analysesC6 : List StudentAssessment :=
  [["t1", "t2", "t3", "t4", "t5", "t6", "t7", "t8"],
   ["t1", "t2", "t3", "t4", "t5", "t6", "t7"],
   ["t1", "t2", "t3", "t4", "t5", "t6"],
   ["t1", "t2", "t3", "t4", "t5"],
   ["t1", "t2", "t3", "t4"],
   ["t1", "t2", "t3"],
   ["t1", "t2"],
   ["t1"]].map
    (fun cats =>
      { understood_well := cats.map ({ category := · }),
        struggled_with := cats.map ({ category := · }) })

/-- Outcome of the fixture run used by the C7 witness. -/
def runW : RunOutcome := runPipeline dbOne llmGood "a1"

/-- Payload of the fixture run. -/
def outW : AnalyzeOut :=
  match runW with
  | .done o _ => o
  | _ => .errorOut "" ""

/-- Cache entry of the fixture run. -/
def entryW : CacheEntry :=
  match runW with
  | .done _ e => e
  | _ => otherEntry

/-- Characters of the needle `'```json'`. -/
def jsonNeedle : List Char := ['`', '`', '`', 'j', 's', 'o', 'n']

/-- Characters of the needle `'```'`. -/
def tickNeedle : List Char := ['`', '`', '`']

/-- The payload text contains no backtick (so fence markers occur only
as the enclosing markup). -/
def noBacktick (s : String) : Bool := s.data.all (fun c => c ≠ '`')

/-- The structured record used by the C8 witness (no backticks, no
surrounding whitespace). -/
def fenceRecord : String :=
  "\x7b\"understood_well\": [], \"struggled_with\": [\x7b\"category\": \"recursion\"\x7d]\x7d"

/-- An engine that answers the first-pass prompt with a
`'```json'`-fenced record and every other prompt with a plain-fenced
record. -/
def llmFence : LLM := fun _ sys _ =>
  if sys = firstStudentSystem then "```json\n" ++ fenceRecord ++ "\n```"
  else "```\n" ++ fenceRecord ++ "\n```"

/-! ## Helper lemmas -/

/-- Folding list-append of singletons is `map`. -/
theorem foldl_push {α β : Type} (f : α → β) (l : List α) (acc : List β) :
    l.foldl (fun acc x => acc ++ [f x]) acc = acc ++ l.map f := by
  induction l generalizing acc with
  | nil => simp
  | cons x xs ih => simp [ih]

/-- A dict write is visible to a subsequent read of the same key. -/
theorem cacheLookup_dictInsert (k : String) (v : CacheEntry) (m : Cache) :
    cacheLookup (dictInsert k v m) k = some v := by
  induction m with
  | nil => simp [dictInsert, cacheLookup]
  | cons p rest ih =>
    obtain ⟨k1, v1⟩ := p
    by_cases h : k1 = k
    · simp [dictInsert, cacheLookup, h]
    · simp [dictInsert, cacheLookup, h, ih]

/-- The nested struggle-counting loop counts one increment per flattened
`(assessment, category)` occurrence. -/
theorem struggleCounts_eq_countOcc (analyses : List StudentAssessment) :
    struggleCounts analyses =
      countOcc ((analyses.map StudentAssessment.struggled_with).flatten.map AssessItem.category) := by
  unfold struggleCounts countOcc
  rw [List.foldl_map, List.foldl_flatten, List.foldl_map]

/-- Same for the understanding counts. -/
theorem understoodCounts_eq_countOcc (analyses : List StudentAssessment) :
    understoodCounts analyses =
      countOcc ((analyses.map StudentAssessment.understood_well).flatten.map AssessItem.category) := by
  unfold understoodCounts countOcc
  rw [List.foldl_map, List.foldl_flatten, List.foldl_map]

/-! ## Claims -/

/-- C1: for every assignment id absent from the report cache, `query`
with any question returns the fixed human-readable instructional message
and consults nothing else — the engine oracle is universally quantified
and unused, so no normal answer is ever produced.  This is the behavior
the specification names `NotAnalyzedError` and describes as "surfaced as
a user-facing instructional message, not a crash" (§7). -/
theorem query_before_analyze_fails (llm : LLM) (cache : Cache)
    (assignment_id question : String)
    (h : cacheLookup cache assignment_id = none) :
    query llm cache assignment_id question = (notAnalyzedMessage, cache) := by
  simp [query, h]

/-- Witness for C1 at a fresh assignment id and an empty cache. -/
theorem query_before_analyze_fails_witness :
    cacheLookup [] "fresh_assignment" = none ∧
    query llmBad [] "fresh_assignment" "any question" =
      ("Please run analysis first before querying.", []) :=
  ⟨rfl, query_before_analyze_fails llmBad [] "fresh_assignment" "any question" rfl⟩

/-- C10: `query` never modifies the report cache — whatever the
assignment id, the question, and the engine's answer, the cache
component of the state after the call is exactly the cache before it. -/
theorem query_preserves_cache (llm : LLM) (cache : Cache)
    (assignment_id question : String) :
    (query llm cache assignment_id question).2 = cache := by
  unfold query
  cases cacheLookup cache assignment_id <;> rfl

/-- C4: when the conversation store holds zero conversations for the
assignment, `analyze_assignment` returns (without raising) the payload
carrying the assignment id and the error text, and the cache is returned
untouched — no entry is created. -/
theorem empty_corpus_error_payload (db : DB) (llm : LLM) (cache : Cache)
    (assignment_id : String) (h : (db assignment_id).1 = []) :
    analyze_assignment db llm cache assignment_id =
      (.ok (.errorOut assignment_id "No chat histories found"), cache) := by
  simp [analyze_assignment, runPipeline, h]

/-- Witness for C4: an empty store, a pre-populated cache that stays as
it was. -/
theorem empty_corpus_error_payload_witness :
    (dbNone "no_such_assignment").1 = [] ∧
    analyze_assignment dbNone llmGood [("other", otherEntry)] "no_such_assignment" =
      (.ok (.errorOut "no_such_assignment" "No chat histories found"),
        [("other", otherEntry)]) :=
  ⟨rfl, empty_corpus_error_payload dbNone llmGood [("other", otherEntry)]
    "no_such_assignment" rfl⟩

/-- C2: if the engine's text for the first student does not decode into
the structured record (`_analyze_first_student` raises), the whole
`analyze_assignment` call fails with that decode error and the cache is
returned exactly as it was — no partial report is cached. -/
theorem malformed_first_student_aborts (db : DB) (llm : LLM) (cache : Cache)
    (assignment_id exam_content : String) (conv0 : List String)
    (rest : List (List String)) (e : AnalysisError)
    (hdb : db assignment_id = (conv0 :: rest, exam_content))
    (hfail : analyzeFirstStudent llm conv0 exam_content = .error e) :
    analyze_assignment db llm cache assignment_id = (.error e, cache) := by
  simp [analyze_assignment, runPipeline, hdb, hfail]

/-- Witness for C2: a non-JSON engine answer aborts the run and leaves a
pre-populated cache untouched. -/
theorem malformed_first_student_aborts_witness :
    dbOne "a1" = ([["hi", "hello"]], "exam text") ∧
    analyzeFirstStudent llmBad ["hi", "hello"] "exam text" =
      .error (.malformed "not json") ∧
    analyze_assignment dbOne llmBad [("other", otherEntry)] "a1" =
      (.error (.malformed "not json"), [("other", otherEntry)]) :=
  ⟨rfl, rfl,
    malformed_first_student_aborts dbOne llmBad [("other", otherEntry)] "a1"
      "exam text" ["hi", "hello"] [] (.malformed "not json") rfl rfl⟩

/-- C5: the canonicalizer output is exactly every `understood_well`
category tagged `understood` followed by every `struggled_with` category
tagged `struggled`, in source order, without deduplication (a repeated
category occurs repeatedly in the result): the canonical set is
identical to the categories derivable from the first student's
assessment.  `extract_categories` takes no engine oracle, so no
reasoning-engine call is involved. -/
theorem canonicalizer_spec (a : StudentAssessment) :
    extract_categories a =
      a.understood_well.map
          (fun item => { category := item.category, type := "understood" })
        ++ a.struggled_with.map
          (fun item => { category := item.category, type := "struggled" }) := by
  simp [extract_categories, foldl_push]

/-- C3: the aggregator counts one increment per `(assessment, category)`
occurrence — the struggle counts are the occurrence counts of the
flattened category list, with no deduplication within an assessment —
and on 3 students whose struggle occurrences are
`["loops", "loops", "recursion"]` (one student listing `loops` twice) it
reports `loops: 2 (66.7%)` and `recursion: 1 (33.3%)`, percentage
`100 × count / total_students` rendered to one decimal place. -/
theorem aggregation_counts_occurrences :
    (∀ analyses : List StudentAssessment,
      struggleCounts analyses =
        countOcc ((analyses.map StudentAssessment.struggled_with).flatten.map
          AssessItem.category)) ∧
    (∀ analyses : List StudentAssessment,
      analyses.length = 3 →
      (analyses.map StudentAssessment.struggled_with).flatten.map AssessItem.category
        = ["loops", "loops", "recursion"] →
      struggleCounts analyses = [("loops", 2), ("recursion", 1)] ∧
      topStruggleLines analyses =
        ["- **loops**: 2 students (66.7%)", "- **recursion**: 1 students (33.3%)"]) := by
  refine ⟨struggleCounts_eq_countOcc, fun analyses h3 hocc => ?_⟩
  have hc : struggleCounts analyses = [("loops", 2), ("recursion", 1)] := by
    rw [struggleCounts_eq_countOcc, hocc]
    decide
  refine ⟨hc, ?_⟩
  simp only [topStruggleLines, hc, h3]
  rfl

/-- Witness for C3 on the 3-student fixture. -/
theorem aggregation_counts_occurrences_witness :
    analysesC3.length = 3 ∧
    (analysesC3.map StudentAssessment.struggled_with).flatten.map AssessItem.category
      = ["loops", "loops", "recursion"] ∧
    struggleCounts analysesC3 = [("loops", 2), ("recursion", 1)] ∧
    topStruggleLines analysesC3 =
      ["- **loops**: 2 students (66.7%)", "- **recursion**: 1 students (33.3%)"] :=
  ⟨rfl, rfl, (aggregation_counts_occurrences.2 analysesC3 rfl rfl).1,
    (aggregation_counts_occurrences.2 analysesC3 rfl rfl).2⟩

/-- C9: when a count mapping is empty the renderer emits the explicit
"no significant pattern" placeholder line for that section instead of an
empty bullet list, and the rendered report places those lines directly
under the section headers. -/
theorem empty_mapping_placeholder (analyses : List StudentAssessment)
    (hne : analyses ≠ []) :
    (struggleCounts analyses = [] →
      topStruggleLines analyses = ["_No significant struggles detected._"]) ∧
    (understoodCounts analyses = [] →
      topUnderstoodLines analyses = ["_No clear patterns of understanding detected._"]) ∧
    generate_statistics analyses =
      String.intercalate "\n"
        (["### \u00f0\u0178\u201c\u0160 Class Statistics (N=" ++ toString analyses.length ++ ")", "",
          "#### \u00e2\u0161\u00a0\u00ef\u00b8 Top Struggles"]
          ++ topStruggleLines analyses
          ++ [""] ++ ["#### \u00e2\u0153\u2026 Well Understood"]
          ++ topUnderstoodLines analyses) := by
  refine ⟨fun h => ?_, fun h => ?_, ?_⟩
  · simp [topStruggleLines, h, sortCountsDesc]
  · simp [topUnderstoodLines, h, sortCountsDesc]
  · have hlen : analyses.length ≠ 0 := fun h0 => hne (List.length_eq_zero.mp h0)
    simp only [generate_statistics, hlen, if_false, ite_false, if_neg hlen]

/-- Witness for C9: one student with no categorized items at all. -/
theorem empty_mapping_placeholder_witness :
    ([({ understood_well := [], struggled_with := [] } : StudentAssessment)] ≠
      ([] : List StudentAssessment)) ∧
    struggleCounts [{ understood_well := [], struggled_with := [] }] = [] ∧
    understoodCounts [{ understood_well := [], struggled_with := [] }] = [] ∧
    topStruggleLines [{ understood_well := [], struggled_with := [] }] =
      ["_No significant struggles detected._"] ∧
    topUnderstoodLines [{ understood_well := [], struggled_with := [] }] =
      ["_No clear patterns of understanding detected._"] :=
  ⟨by simp, rfl, rfl,
    (empty_mapping_placeholder
      [{ understood_well := [], struggled_with := [] }] (by simp)).1 rfl,
    (empty_mapping_placeholder
      [{ understood_well := [], struggled_with := [] }] (by simp)).2.1 rfl⟩

/-- `insertDesc` keeps an element in front of a first element of no
larger count. -/
theorem insertDesc_front (x y : String × Nat) (ys : List (String × Nat))
    (h : y.2 ≤ x.2) : insertDesc x (y :: ys) = x :: y :: ys := by
  simp [insertDesc, h]

/-- A list already sorted by weakly descending count is a fixed point of
the stable descending sort. -/
theorem sortCountsDesc_of_sorted :
    ∀ l : List (String × Nat),
      List.Chain' (fun a b => b.2 <= a.2) l → sortCountsDesc l = l := by
  intro l hl
  induction l with
  | nil => rfl
  | cons x xs ih =>
    cases xs with
    | nil => rfl
    | cons y ys =>
      rw [List.chain'_cons] at hl
      have htail : sortCountsDesc (y :: ys) = y :: ys := ih hl.2
      show insertDesc x (sortCountsDesc (y :: ys)) = x :: y :: ys
      rw [htail, insertDesc_front x y ys hl.1]

/-- C6: with 8 distinct struggle categories of strictly decreasing
counts, the rendered statistics list exactly the five categories of
highest count, in count-descending order, and omit the remaining three;
the `understood_well` section is independently sorted and truncated the
same way. -/
theorem top_five_truncation (analyses : List StudentAssessment)
    (c1 c2 c3 c4 c5 c6 c7 c8 : String) (n1 n2 n3 n4 n5 n6 n7 n8 : Nat)
    (h21 : n2 < n1) (h32 : n3 < n2) (h43 : n4 < n3) (h54 : n5 < n4)
    (h65 : n6 < n5) (h76 : n7 < n6) (h87 : n8 < n7) :
    (struggleCounts analyses =
        [(c1, n1), (c2, n2), (c3, n3), (c4, n4), (c5, n5), (c6, n6), (c7, n7), (c8, n8)] →
      topStruggleLines analyses =
        [bulletLine c1 n1 analyses.length, bulletLine c2 n2 analyses.length,
         bulletLine c3 n3 analyses.length, bulletLine c4 n4 analyses.length,
         bulletLine c5 n5 analyses.length]) ∧
    (understoodCounts analyses =
        [(c1, n1), (c2, n2), (c3, n3), (c4, n4), (c5, n5), (c6, n6), (c7, n7), (c8, n8)] →
      topUnderstoodLines analyses =
        [bulletLine c1 n1 analyses.length, bulletLine c2 n2 analyses.length,
         bulletLine c3 n3 analyses.length, bulletLine c4 n4 analyses.length,
         bulletLine c5 n5 analyses.length]) := by
  have hsort : sortCountsDesc
      [(c1, n1), (c2, n2), (c3, n3), (c4, n4), (c5, n5), (c6, n6), (c7, n7), (c8, n8)] =
      [(c1, n1), (c2, n2), (c3, n3), (c4, n4), (c5, n5), (c6, n6), (c7, n7), (c8, n8)] := by
    apply sortCountsDesc_of_sorted
    simp [List.chain'_cons]
    omega
  constructor
  · intro h
    simp only [topStruggleLines, h, hsort, List.take, List.isEmpty, List.map]
    rfl
  · intro h
    simp only [topUnderstoodLines, h, hsort, List.take, List.isEmpty, List.map]
    rfl

/-- Witness for C6 on the 8-student fixture. -/
theorem top_five_truncation_witness :
    struggleCounts analysesC6 =
      [("t1", 8), ("t2", 7), ("t3", 6), ("t4", 5), ("t5", 4), ("t6", 3), ("t7", 2), ("t8", 1)] ∧
    understoodCounts analysesC6 =
      [("t1", 8), ("t2", 7), ("t3", 6), ("t4", 5), ("t5", 4), ("t6", 3), ("t7", 2), ("t8", 1)] ∧
    topStruggleLines analysesC6 =
      [bulletLine "t1" 8 analysesC6.length, bulletLine "t2" 7 analysesC6.length,
       bulletLine "t3" 6 analysesC6.length, bulletLine "t4" 5 analysesC6.length,
       bulletLine "t5" 4 analysesC6.length] ∧
    topUnderstoodLines analysesC6 =
      [bulletLine "t1" 8 analysesC6.length, bulletLine "t2" 7 analysesC6.length,
       bulletLine "t3" 6 analysesC6.length, bulletLine "t4" 5 analysesC6.length,
       bulletLine "t5" 4 analysesC6.length] :=
  ⟨by decide, by decide,
    (top_five_truncation analysesC6 "t1" "t2" "t3" "t4" "t5" "t6" "t7" "t8"
      8 7 6 5 4 3 2 1 (by decide) (by decide) (by decide) (by decide)
      (by decide) (by decide) (by decide)).1 (by decide),
    (top_five_truncation analysesC6 "t1" "t2" "t3" "t4" "t5" "t6" "t7" "t8"
      8 7 6 5 4 3 2 1 (by decide) (by decide) (by decide) (by decide)
      (by decide) (by decide) (by decide)).2 (by decide)⟩

/-- C7: a successful `analyze_assignment` run writes the cache entry
computed by the run alone (`runPipeline` takes no cache argument), so a
second call with an unchanged store and engine replaces the cached
report wholesale with exactly the second run's entry — never a partial
merge — and returns a payload (hence a StatisticsReport string) byte for
byte equal to the first run's. -/
theorem rerun_overwrites_wholesale (db : DB) (llm : LLM) (cache : Cache)
    (assignment_id : String) (out : AnalyzeOut) (entry : CacheEntry)
    (h : runPipeline db llm assignment_id = .done out entry) :
    analyze_assignment db llm cache assignment_id =
      (.ok out, dictInsert assignment_id entry cache) ∧
    analyze_assignment db llm (analyze_assignment db llm cache assignment_id).2 assignment_id =
      (.ok out, dictInsert assignment_id entry (dictInsert assignment_id entry cache)) ∧
    (analyze_assignment db llm (analyze_assignment db llm cache assignment_id).2 assignment_id).1 =
      (analyze_assignment db llm cache assignment_id).1 ∧
    cacheLookup
      (analyze_assignment db llm (analyze_assignment db llm cache assignment_id).2 assignment_id).2
      assignment_id = some entry := by
  have h1 : analyze_assignment db llm cache assignment_id =
      (.ok out, dictInsert assignment_id entry cache) := by
    simp [analyze_assignment, h]
  have h2 : analyze_assignment db llm (dictInsert assignment_id entry cache) assignment_id =
      (.ok out, dictInsert assignment_id entry (dictInsert assignment_id entry cache)) := by
    simp [analyze_assignment, h]
  refine ⟨h1, ?_, ?_, ?_⟩ <;> simp [h1, h2, cacheLookup_dictInsert]

/-- Witness for C7: one stored conversation, a well-formed engine
answer, two successive runs. -/
theorem rerun_overwrites_wholesale_witness :
    runPipeline dbOne llmGood "a1" = .done outW entryW ∧
    analyze_assignment dbOne llmGood [] "a1" = (.ok outW, dictInsert "a1" entryW []) ∧
    cacheLookup
      (analyze_assignment dbOne llmGood (analyze_assignment dbOne llmGood [] "a1").2 "a1").2
      "a1" = some entryW :=
  ⟨rfl, (rerun_overwrites_wholesale dbOne llmGood [] "a1" outW entryW rfl).1,
    (rerun_overwrites_wholesale dbOne llmGood [] "a1" outW entryW rfl).2.2.2⟩

/-- `replaceAllAux` on the empty input. -/
theorem replAux_nil (n repl : List Char) (fuel : Nat) :
    replaceAllAux n repl fuel [] = [] := by
  cases fuel <;> rfl

/-- One scan step when the needle does not match here. -/
theorem replAux_cons_nomatch (n repl : List Char) (fuel : Nat) (c : Char)
    (rest : List Char) (h : n.isPrefixOf (c :: rest) = false) :
    replaceAllAux n repl (fuel + 1) (c :: rest) = c :: replaceAllAux n repl fuel rest := by
  simp [replaceAllAux, h]

/-- One scan step when the needle matches here. -/
theorem replAux_cons_match (n repl : List Char) (fuel : Nat) (c : Char)
    (rest : List Char) (hne : n ≠ []) (h : n.isPrefixOf (c :: rest) = true) :
    replaceAllAux n repl (fuel + 1) (c :: rest) =
      repl ++ replaceAllAux n repl fuel ((c :: rest).drop n.length) := by
  simp [replaceAllAux, hne, h]

/-- The scan passes unchanged over a region free of the needle's first
character, for every fuel value. -/
theorem replAux_append_free (n repl : List Char) (c0 : Char) (hn : n.head? = some c0) :
    ∀ (t u : List Char), (∀ c ∈ t, c ≠ c0) → ∀ fuel,
      replaceAllAux n repl fuel (t ++ u) = t ++ replaceAllAux n repl (fuel - t.length) u := by
  intro t
  induction t with
  | nil => intro u _ fuel; simp
  | cons c t2 ih =>
    intro u ht fuel
    have hc : c ≠ c0 := ht c (by simp)
    have hpre : n.isPrefixOf (c :: (t2 ++ u)) = false := by
      cases n with
      | nil => simp at hn
      | cons a n2 =>
        have ha : a = c0 := by simpa using hn
        have hac : (a == c) = false := beq_eq_false_iff_ne.mpr (fun h2 => hc (h2 ▸ ha))
        simp [List.isPrefixOf, hac]
    cases fuel with
    | zero => simp [replaceAllAux]
    | succ f =>
      have hstep := replAux_cons_nomatch n repl f c (t2 ++ u) hpre
      calc replaceAllAux n repl (f + 1) ((c :: t2) ++ u)
          = c :: replaceAllAux n repl f (t2 ++ u) := hstep
        _ = c :: (t2 ++ replaceAllAux n repl (f - t2.length) u) := by
            rw [ih u (fun x hx => ht x (by simp [hx])) f]
        _ = (c :: t2) ++ replaceAllAux n repl ((f + 1) - (c :: t2).length) u := by
            simp [Nat.succ_sub_succ]

/-- Spelled-out form of `noBacktick`. -/
theorem noBacktick_chars (s : String) (h : noBacktick s = true) :
    ∀ c ∈ s.data, c ≠ '`' := by
  intro c hc
  have := List.all_eq_true.mp h c hc
  simpa using this

/-- Pass 1 on a `'```json'`-fenced payload: the opening marker is
removed and nothing else changes. -/
theorem clean1_json (s : String) (hs : noBacktick s = true) :
    replaceAllAux jsonNeedle [] (s.data.length + 12)
      (jsonNeedle ++ ('\n' :: s.data ++ '\n' :: tickNeedle)) =
      '\n' :: s.data ++ '\n' :: tickNeedle := by
  have h1 : jsonNeedle ++ ('\n' :: s.data ++ '\n' :: tickNeedle) =
      '`' :: ('`' :: '`' :: 'j' :: 's' :: 'o' :: 'n' :: ('\n' :: s.data ++ '\n' :: tickNeedle)) := rfl
  have hpre : jsonNeedle.isPrefixOf
      ('`' :: ('`' :: '`' :: 'j' :: 's' :: 'o' :: 'n' :: ('\n' :: s.data ++ '\n' :: tickNeedle))) = true := by
    simp [List.isPrefixOf]
  rw [show s.data.length + 12 = (s.data.length + 11) + 1 by omega, h1,
    replAux_cons_match _ _ _ _ _ (by simp [jsonNeedle]) hpre]
  have hdrop : ('`' :: ('`' :: '`' :: 'j' :: 's' :: 'o' :: 'n' :: ('\n' :: s.data ++ '\n' :: tickNeedle))).drop
      jsonNeedle.length = '\n' :: s.data ++ '\n' :: tickNeedle := rfl
  rw [hdrop]
  have hmid : ('\n' :: s.data ++ '\n' :: tickNeedle) =
      (('\n' :: s.data) ++ ['\n']) ++ tickNeedle := by simp
  rw [List.nil_append, hmid,
    replAux_append_free jsonNeedle [] '`' rfl (('\n' :: s.data) ++ ['\n']) tickNeedle
      (by
        intro c hc
        simp at hc
        rcases hc with hc | hc | hc
        · simp [hc]
        · exact noBacktick_chars s hs c hc
        · simp [hc])
      (s.data.length + 11)]
  have hlen : (s.data.length + 11) - (('\n' :: s.data) ++ ['\n']).length = 9 := by
    simp [List.length_append]
  rw [hlen]
  have htail : replaceAllAux jsonNeedle [] 9 tickNeedle = tickNeedle := by decide
  rw [htail]

/-- Pass 2 on the result of pass 1: the closing `'```'` marker is
removed. -/
theorem clean2_ticks (s : String) (hs : noBacktick s = true) :
    replaceAllAux tickNeedle [] (s.data.length + 5) ('\n' :: s.data ++ '\n' :: tickNeedle) =
      '\n' :: s.data ++ ['\n'] := by
  have hmid : ('\n' :: s.data ++ '\n' :: tickNeedle) =
      (('\n' :: s.data) ++ ['\n']) ++ tickNeedle := by simp
  rw [hmid,
    replAux_append_free tickNeedle [] '`' rfl (('\n' :: s.data) ++ ['\n']) tickNeedle
      (by
        intro c hc
        simp at hc
        rcases hc with hc | hc | hc
        · simp [hc]
        · exact noBacktick_chars s hs c hc
        · simp [hc])
      (s.data.length + 5)]
  have hlen : (s.data.length + 5) - (('\n' :: s.data) ++ ['\n']).length = 3 := by
    simp [List.length_append]
  rw [hlen, show replaceAllAux tickNeedle [] 3 tickNeedle = [] from by decide]
  simp

/-- `str.strip` ignores a leading newline. -/
theorem pyStrip_nl_left (x : List Char) : pyStrip ('\n' :: x) = pyStrip x := by
  simp [pyStrip, List.dropWhile_cons, show isWsChar '\n' = true from by decide]

/-- `str.strip` ignores a trailing newline. -/
theorem pyStrip_nl_right (x : List Char) : pyStrip (x ++ ['\n']) = pyStrip x := by
  unfold pyStrip
  rw [List.dropWhile_append]
  by_cases h : (List.dropWhile isWsChar x).isEmpty
  · have hx : List.dropWhile isWsChar x = [] := by
      cases hempty : List.dropWhile isWsChar x with
      | nil => rfl
      | cons y ys => rw [hempty] at h; simp at h
    simp [h, hx, show isWsChar '\n' = true from by decide]
  · simp only [h, Bool.false_eq_true, if_false, ite_false]
    rw [List.reverse_append]
    simp [List.dropWhile_cons, show isWsChar '\n' = true from by decide]

/-- Pass 1 leaves a plain-`'```'`-fenced payload unchanged: `'```json'`
occurs nowhere in it. -/
theorem clean1_plain (s : String) (hs : noBacktick s = true) :
    replaceAllAux jsonNeedle [] (s.data.length + 8)
      (tickNeedle ++ ('\n' :: s.data ++ '\n' :: tickNeedle)) =
      tickNeedle ++ ('\n' :: s.data ++ '\n' :: tickNeedle) := by
  have h1 : tickNeedle ++ ('\n' :: s.data ++ '\n' :: tickNeedle) =
      '`' :: '`' :: '`' :: '\n' :: (s.data ++ '\n' :: tickNeedle) := rfl
  have hp1 : jsonNeedle.isPrefixOf
      ('`' :: '`' :: '`' :: '\n' :: (s.data ++ '\n' :: tickNeedle)) = false := by
    simp [jsonNeedle, List.isPrefixOf]
  have hp2 : jsonNeedle.isPrefixOf
      ('`' :: '`' :: '\n' :: (s.data ++ '\n' :: tickNeedle)) = false := by
    simp [jsonNeedle, List.isPrefixOf]
  have hp3 : jsonNeedle.isPrefixOf
      ('`' :: '\n' :: (s.data ++ '\n' :: tickNeedle)) = false := by
    simp [jsonNeedle, List.isPrefixOf]
  have hp4 : jsonNeedle.isPrefixOf
      ('\n' :: (s.data ++ '\n' :: tickNeedle)) = false := by
    simp [jsonNeedle, List.isPrefixOf]
  rw [show s.data.length + 8 = s.data.length + 4 + 1 + 1 + 1 + 1 by omega, h1,
    replAux_cons_nomatch _ _ _ _ _ hp1, replAux_cons_nomatch _ _ _ _ _ hp2,
    replAux_cons_nomatch _ _ _ _ _ hp3, replAux_cons_nomatch _ _ _ _ _ hp4,
    replAux_append_free jsonNeedle [] '`' rfl s.data ('\n' :: tickNeedle)
      (noBacktick_chars s hs) (s.data.length + 4)]
  have hlen : s.data.length + 4 - s.data.length = 4 := by omega
  rw [hlen, show replaceAllAux jsonNeedle [] 4 ('\n' :: tickNeedle) = '\n' :: tickNeedle
    from by decide]

/-- Pass 2 on a plain-fenced payload: both `'```'` markers are
removed. -/
theorem clean2_plain (s : String) (hs : noBacktick s = true) :
    replaceAllAux tickNeedle [] (s.data.length + 8)
      (tickNeedle ++ ('\n' :: s.data ++ '\n' :: tickNeedle)) =
      '\n' :: s.data ++ ['\n'] := by
  have h1 : tickNeedle ++ ('\n' :: s.data ++ '\n' :: tickNeedle) =
      '`' :: ('`' :: '`' :: ('\n' :: s.data ++ '\n' :: tickNeedle)) := by simp [tickNeedle]
  have hpre : tickNeedle.isPrefixOf
      ('`' :: ('`' :: '`' :: ('\n' :: s.data ++ '\n' :: tickNeedle))) = true := by
    simp [tickNeedle, List.isPrefixOf]
  rw [show s.data.length + 8 = (s.data.length + 7) + 1 by omega, h1,
    replAux_cons_match _ _ _ _ _ (by simp [tickNeedle]) hpre]
  have hdrop : ('`' :: ('`' :: '`' :: ('\n' :: s.data ++ '\n' :: tickNeedle))).drop
      tickNeedle.length = '\n' :: s.data ++ '\n' :: tickNeedle := rfl
  rw [hdrop]
  have hmid : ('\n' :: s.data ++ '\n' :: tickNeedle) =
      (('\n' :: s.data) ++ ['\n']) ++ tickNeedle := by simp
  rw [List.nil_append, hmid,
    replAux_append_free tickNeedle [] '`' rfl (('\n' :: s.data) ++ ['\n']) tickNeedle
      (by
        intro c hc
        simp at hc
        rcases hc with hc | hc | hc
        · simp [hc]
        · exact noBacktick_chars s hs c hc
        · simp [hc])
      (s.data.length + 7)]
  have hlen : (s.data.length + 7) - (('\n' :: s.data) ++ ['\n']).length = 5 := by
    simp [List.length_append]
  rw [hlen, show replaceAllAux tickNeedle [] 5 tickNeedle = [] from by decide]
  simp

/-- Cleaning a `'```json'`-fenced backtick-free payload yields exactly
the stripped payload. -/
theorem cleanResponse_fenced_json (s : String) (hs : noBacktick s = true) :
    cleanResponse ("```json\n" ++ s ++ "\n```") = stripStr s := by
  have hdata : ("```json\n" ++ s ++ "\n```").data =
      jsonNeedle ++ ('\n' :: s.data ++ '\n' :: tickNeedle) := by
    rw [String.data_append, String.data_append,
      show "```json\n".data = jsonNeedle ++ ['\n'] from rfl,
      show "\n```".data = '\n' :: tickNeedle from rfl]
    simp
  have hlen1 : (jsonNeedle ++ ('\n' :: s.data ++ '\n' :: tickNeedle)).length =
      s.data.length + 12 := by
    simp [jsonNeedle, tickNeedle, List.length_append]
  have h1 : replaceAll "```json" "" ("```json\n" ++ s ++ "\n```") =
      { data := '\n' :: s.data ++ '\n' :: tickNeedle } := by
    unfold replaceAll
    rw [show ("```json" : String).data = jsonNeedle from rfl,
      show ("" : String).data = [] from rfl, hdata, hlen1]
    exact congrArg String.mk (clean1_json s hs)
  have hlen2 : ('\n' :: s.data ++ '\n' :: tickNeedle).length = s.data.length + 5 := by
    simp [tickNeedle, List.length_append]
  have h2 : replaceAll "```" "" ({ data := '\n' :: s.data ++ '\n' :: tickNeedle } : String) =
      { data := '\n' :: s.data ++ ['\n'] } := by
    unfold replaceAll
    rw [show ("```" : String).data = tickNeedle from rfl,
      show ("" : String).data = [] from rfl,
      show ({ data := '\n' :: s.data ++ '\n' :: tickNeedle } : String).data =
        '\n' :: s.data ++ '\n' :: tickNeedle from rfl, hlen2]
    exact congrArg String.mk (clean2_ticks s hs)
  have h3 : stripStr ({ data := '\n' :: s.data ++ ['\n'] } : String) = stripStr s := by
    unfold stripStr
    refine congrArg String.mk ?_
    rw [show ({ data := '\n' :: s.data ++ ['\n'] } : String).data =
      '\n' :: (s.data ++ ['\n']) from rfl, pyStrip_nl_left, pyStrip_nl_right]
  unfold cleanResponse
  rw [h1, h2, h3]

/-- Cleaning a plain-`'```'`-fenced backtick-free payload yields exactly
the stripped payload. -/
theorem cleanResponse_fenced_plain (s : String) (hs : noBacktick s = true) :
    cleanResponse ("```\n" ++ s ++ "\n```") = stripStr s := by
  have hdata : ("```\n" ++ s ++ "\n```").data =
      tickNeedle ++ ('\n' :: s.data ++ '\n' :: tickNeedle) := by
    rw [String.data_append, String.data_append,
      show "```\n".data = tickNeedle ++ ['\n'] from rfl,
      show "\n```".data = '\n' :: tickNeedle from rfl]
    simp
  have hlen1 : (tickNeedle ++ ('\n' :: s.data ++ '\n' :: tickNeedle)).length =
      s.data.length + 8 := by
    simp [tickNeedle, List.length_append]
  have h1 : replaceAll "```json" "" ("```\n" ++ s ++ "\n```") =
      { data := tickNeedle ++ ('\n' :: s.data ++ '\n' :: tickNeedle) } := by
    unfold replaceAll
    rw [show ("```json" : String).data = jsonNeedle from rfl,
      show ("" : String).data = [] from rfl, hdata, hlen1]
    exact congrArg String.mk (clean1_plain s hs)
  have h2 : replaceAll "```" ""
      ({ data := tickNeedle ++ ('\n' :: s.data ++ '\n' :: tickNeedle) } : String) =
      { data := '\n' :: s.data ++ ['\n'] } := by
    unfold replaceAll
    rw [show ("```" : String).data = tickNeedle from rfl,
      show ("" : String).data = [] from rfl,
      show ({ data := tickNeedle ++ ('\n' :: s.data ++ '\n' :: tickNeedle) } : String).data =
        tickNeedle ++ ('\n' :: s.data ++ '\n' :: tickNeedle) from rfl, hlen1]
    exact congrArg String.mk (clean2_plain s hs)
  have h3 : stripStr ({ data := '\n' :: s.data ++ ['\n'] } : String) = stripStr s := by
    unfold stripStr
    refine congrArg String.mk ?_
    rw [show ({ data := '\n' :: s.data ++ ['\n'] } : String).data =
      '\n' :: (s.data ++ ['\n']) from rfl, pyStrip_nl_left, pyStrip_nl_right]
  unfold cleanResponse
  rw [h1, h2, h3]

/-- C8: both the first-pass extractor and the aligner clean the raw
engine text with the same fence-stripping step before decoding, so a
backtick-free payload that decodes as a structured record still decodes
when the engine wraps it in `'```json' ... '```'` markup (shown on the
extractor) or in plain `'```' ... '```'` markup (shown on the aligner):
the enclosing markers and surrounding whitespace are removed exactly. -/
theorem code_fence_stripping (llm : LLM) (conversation : List String)
    (exam_content : String) (canonical_categories : List CanonicalCategory)
    (student_num : Nat) (s : String) (a : StudentAssessment)
    (hs : noBacktick s = true)
    (hdec : decodeAssessment (stripStr s) = some a)
    (hfirst : llm (firstStudentPrompt conversation exam_content) firstStudentSystem 4096 =
      "```json\n" ++ s ++ "\n```")
    (halign : llm (studentPrompt conversation exam_content student_num)
      (studentSystem canonical_categories) 4096 = "```\n" ++ s ++ "\n```") :
    cleanResponse ("```json\n" ++ s ++ "\n```") = stripStr s ∧
    cleanResponse ("```\n" ++ s ++ "\n```") = stripStr s ∧
    analyzeFirstStudent llm conversation exam_content = .ok a ∧
    analyzeStudent llm conversation exam_content canonical_categories student_num = .ok a := by
  refine ⟨cleanResponse_fenced_json s hs, cleanResponse_fenced_plain s hs, ?_, ?_⟩
  · unfold analyzeFirstStudent
    rw [hfirst]
    simp [cleanResponse_fenced_json s hs, hdec]
  · unfold analyzeStudent
    rw [halign]
    simp [cleanResponse_fenced_plain s hs, hdec]

set_option maxRecDepth 8000 in
/-- Witness for C8: a fenced well-formed record decodes in both the
extractor and the aligner. -/
theorem code_fence_stripping_witness :
    noBacktick fenceRecord = true ∧
    decodeAssessment (stripStr fenceRecord) =
      some { understood_well := [], struggled_with := [{ category := "recursion" }] } ∧
    analyzeFirstStudent llmFence ["hi", "hello"] "exam" =
      .ok { understood_well := [], struggled_with := [{ category := "recursion" }] } ∧
    analyzeStudent llmFence ["hi", "hello"] "exam" [] 2 =
      .ok { understood_well := [], struggled_with := [{ category := "recursion" }] } :=
  ⟨by decide, by decide,
    (code_fence_stripping llmFence ["hi", "hello"] "exam" [] 2 fenceRecord
      { understood_well := [], struggled_with := [{ category := "recursion" }] }
      (by decide) (by decide) rfl rfl).2.2.1,
    (code_fence_stripping llmFence ["hi", "hello"] "exam" [] 2 fenceRecord
      { understood_well := [], struggled_with := [{ category := "recursion" }] }
      (by decide) (by decide) rfl rfl).2.2.2⟩

end Compass
